import Mathlib

/-!
Formal model of the go-notes repository: a CLI note manager backed by a
single SQLite table `notes`.  The storage layer (`internal/storage/sqlite`)
is embedded as pure functions over an explicit `Storage` state; SQLite
behaviour that the Go code relies on (rowid allocation for an
`INTEGER PRIMARY KEY` column, the `LIKE` operator, the
`update_last_edited_at` trigger, `CURRENT_TIMESTAMP`) is embedded
faithfully to SQLite's documented semantics.  Timestamps are a `Nat`
logical clock passed explicitly to the operations that read the current
time.  The CLI dispatcher (`internal/cli`) and `cmd/main.go` are embedded
as functions from argument lists to printed output, a returned error and
the process exit code.
-/

namespace GoNotes

/-- entities.Note: the persisted record (id, title, content, createdAt,
lastEditedAt).  Go `int` ids are modelled as `Int`; `time.Time` as a `Nat`
logical clock. -/
structure Note where
  id : Int
  title : String
  content : String
  createdAt : Nat
  lastEditedAt : Nat
deriving Repr, DecidableEq

/-- sqlite.Storage: the state held by the database file, i.e. the rows of
the `notes` table in insertion order. -/
structure Storage where
  notes : List Note
deriving Repr, DecidableEq

/-- The errors the storage layer can produce: the two validation errors
declared in `internal/storage/sqlite` and `sql.ErrNoRows` (the spec's
`NotFound`).  `StorageUnavailable` (I/O failure) has no counterpart in the
pure embedding. -/
inductive StorageErr where
  | invalidNum
  | invalidParamLength
  | errNoRows
deriving Repr, DecidableEq

/-- The Go error messages, as rendered by `%v`. -/
def errMsg : StorageErr → String
  | .invalidNum => "invalid number"
  | .invalidParamLength => "invalid param length"
  | .errNoRows => "sql: no rows in result set"

/-- math.MaxInt32 = 2^31 - 1, the upper bound used by `validateSQLParam`. -/
def maxInt32 : Int := 2147483647

/-- The `maxStringLength` constant of `validateSQLParam`. -/
def maxStringLength : Nat := 256000

/-- A parameter passed to `validateSQLParam` (Go passes `...interface{}`
and switches on the dynamic type; only `int` and `string` are checked). -/
inductive SQLParam where
  | intP (v : Int)
  | strP (v : String)

/-- validateSQLParam: an `int` must lie in [1, math.MaxInt32], a `string`
must have byte length (Go `len`) in [1, 256000]; the first failing
parameter determines the error. -/
def validateSQLParam : List SQLParam → Option StorageErr
  | [] => none
  | .intP v :: rest =>
    if v < 1 ∨ v > maxInt32 then some .invalidNum else validateSQLParam rest
  | .strP v :: rest =>
    if v.utf8ByteSize < 1 ∨ v.utf8ByteSize > maxStringLength then
      some .invalidParamLength
    else validateSQLParam rest

/-- Shorthand for the integer-parameter condition of `validateSQLParam`. -/
def intValid (v : Int) : Prop := 1 ≤ v ∧ v ≤ maxInt32

instance (v : Int) : Decidable (intValid v) := by
  unfold intValid; exact inferInstance

/-- Shorthand for the string-parameter condition of `validateSQLParam`. -/
def strValid (v : String) : Prop :=
  1 ≤ v.utf8ByteSize ∧ v.utf8ByteSize ≤ maxStringLength

instance (v : String) : Decidable (strValid v) := by
  unfold strValid; exact inferInstance

/-- The largest rowid currently in the `notes` table (0 when empty).
SQLite assigns `note_id INTEGER PRIMARY KEY` (without AUTOINCREMENT) as
one more than this value on INSERT. -/
def maxRowId (s : Storage) : Int :=
  s.notes.foldl (fun m n => max m n.id) 0

/-- ASCII case folding as performed by SQLite's default `LIKE`:
upper-case A-Z folds to a-z, every other character is unchanged. -/
def foldAscii (c : Char) : Char :=
  if 'A' ≤ c ∧ c ≤ 'Z' then Char.ofNat (c.toNat + 32) else c

/-- All suffixes of a character list, longest first, ending with `[]`. -/
def suffixes : List Char → List (List Char)
  | [] => [[]]
  | c :: cs => (c :: cs) :: suffixes cs

/-- SQLite `LIKE` pattern matching (default settings, no ESCAPE):
`%` matches any sequence of characters, `_` matches exactly one
character, and any other character matches case-insensitively under
ASCII folding. -/
def likeMatch : List Char → List Char → Bool
  | [], s => s.isEmpty
  | p :: ps, s =>
    if p == '%' then (suffixes s).any (fun t => likeMatch ps t)
    else
      match s with
      | [] => false
      | c :: cs =>
        if p == '_' then likeMatch ps cs
        else (foldAscii p == foldAscii c) && likeMatch ps cs

/-- Specification-side notion: `k` is a case-insensitive (ASCII folding)
prefix of `s`. -/
def hasPrefixCI : List Char → List Char → Bool
  | [], _ => true
  | _ :: _, [] => false
  | k :: ks, c :: cs => (foldAscii k == foldAscii c) && hasPrefixCI ks cs

/-- Specification-side notion: `k` is a case-sensitive prefix of `s`. -/
def hasPrefixCS : List Char → List Char → Bool
  | [], _ => true
  | _ :: _, [] => false
  | k :: ks, c :: cs => (k == c) && hasPrefixCS ks cs

/-- Specification-side notion: `s` contains `k` as a case-insensitive
(ASCII folding) substring. -/
def containsCI (k s : List Char) : Bool :=
  (suffixes s).any (fun t => hasPrefixCI k t)

/-- Specification-side notion, following the spec's words for
`SearchByKeyword`: `s` contains `k` as a case-sensitive literal
substring. -/
def containsCS (k s : List Char) : Bool :=
  (suffixes s).any (fun t => hasPrefixCS k t)

/-- NewNote: validates title and content, inserts a row whose rowid is
`maxRowId + 1` and whose `created_at` and `last_edited_at` columns both
default to the statement's CURRENT_TIMESTAMP (`now`), and returns
`LastInsertId`.  The post-state is returned alongside the result. -/
def NewNote (s : Storage) (now : Nat) (noteTitle content : String) :
    Except StorageErr Int × Storage :=
  match validateSQLParam [.strP noteTitle, .strP content] with
  | some e => (.error e, s)
  | none =>
    let id := maxRowId s + 1
    (.ok id, ⟨s.notes ++ [⟨id, noteTitle, content, now, now⟩]⟩)

/-- DeleteNote: validates the id, deletes the matching row, and returns
`sql.ErrNoRows` when no row was affected, otherwise echoes the id. -/
def DeleteNote (s : Storage) (id : Int) : Except StorageErr Int × Storage :=
  match validateSQLParam [.intP id] with
  | some e => (.error e, s)
  | none =>
    if s.notes.any (fun n => n.id == id) then
      (.ok id, ⟨s.notes.filter (fun n => !(n.id == id))⟩)
    else (.error .errNoRows, s)

/-- SetNoteContent: validates id and content, updates the `content`
column of the matching row (the `update_last_edited_at` trigger then sets
`last_edited_at` to CURRENT_TIMESTAMP, i.e. `now`), and returns
`sql.ErrNoRows` when no row was affected. -/
def SetNoteContent (s : Storage) (now : Nat) (noteID : Int)
    (content : String) : Except StorageErr Unit × Storage :=
  match validateSQLParam [.intP noteID, .strP content] with
  | some e => (.error e, s)
  | none =>
    if s.notes.any (fun n => n.id == noteID) then
      (.ok (), ⟨s.notes.map (fun n =>
        if n.id == noteID then
          { n with content := content, lastEditedAt := now }
        else n)⟩)
    else (.error .errNoRows, s)

/-- GetNoteByID: validates the id and scans the single row matching it;
`Scan` on an empty result yields `sql.ErrNoRows`. -/
def GetNoteByID (s : Storage) (noteID : Int) : Except StorageErr Note :=
  match validateSQLParam [.intP noteID] with
  | some e => .error e
  | none =>
    match s.notes.find? (fun n => n.id == noteID) with
    | some n => .ok n
    | none => .error .errNoRows

/-- SearchNotesByKeyword: validates the keyword, then selects the rows
where `title LIKE '%'||keyword||'%' OR content LIKE '%'||keyword||'%'`. -/
def SearchNotesByKeyword (s : Storage) (keyword : String) :
    Except StorageErr (List Note) :=
  match validateSQLParam [.strP keyword] with
  | some e => .error e
  | none =>
    let pat := ("%" ++ keyword ++ "%").data
    .ok (s.notes.filter (fun n =>
      likeMatch pat n.title.data || likeMatch pat n.content.data))

/-- GetAllNotes: `SELECT * FROM notes`, every row in table order. -/
def GetAllNotes (s : Storage) : List Note := s.notes

/-- Accumulate decimal digits as strconv.Atoi does; any non-digit
character is a syntax error. -/
def atoiDigits : List Char → Nat → Option Nat
  | [], acc => some acc
  | c :: cs, acc =>
    if '0' ≤ c ∧ c ≤ '9' then atoiDigits cs (acc * 10 + (c.toNat - 48))
    else none

/-- strconv.Atoi, as used by the CLI to parse id arguments: an optional
sign followed by at least one decimal digit.  (Go additionally rejects
values overflowing int64, which no claim exercises.) -/
def atoi (s : String) : Option Int :=
  match s.data with
  | [] => none
  | '-' :: rest =>
    match rest with
    | [] => none
    | _ => (atoiDigits rest 0).map (fun n => -(n : Int))
  | '+' :: rest =>
    match rest with
    | [] => none
    | _ => (atoiDigits rest 0).map (fun n => (n : Int))
  | l => (atoiDigits l 0).map (fun n => (n : Int))

/-- The Go rendering of a strconv.Atoi failure, wrapped by the commands. -/
def atoiErrMsg (s : String) : String :=
  "strconv.Atoi: parsing \"" ++ s ++ "\": invalid syntax"

/-- The outcome of one CLI command action: the lines it printed to
standard output and the error it returned (`none` = nil). -/
structure CmdResult where
  output : List String
  err : Option String
deriving Repr, DecidableEq

/-- c.Args().First() / c.Args().Get(i): a missing positional argument
reads as the empty string. -/
def argGet (args : List String) (i : Nat) : String := args.getD i ""

/-- The action of the `new` command: prompts (and returns nil) when the
title or the content argument is missing, otherwise calls NewNote. -/
def newNoteCommand (s : Storage) (now : Nat) (args : List String) :
    CmdResult × Storage :=
  let title := argGet args 0
  if title == "" then
    (⟨["Please provide a title for new note."], none⟩, s)
  else
    let content := argGet args 1
    if content == "" then
      (⟨["Please provide content for new note."], none⟩, s)
    else
      match NewNote s now title content with
      | (.error e, s') =>
        (⟨[], some ("creating new note: " ++ errMsg e ++ "\n")⟩, s')
      | (.ok id, s') =>
        (⟨["Created a new note with ID " ++ toString id], none⟩, s')

/-- The action of the `delete` command: a missing id argument is returned
as an error (unlike the other commands' prompts). -/
def deleteNoteCommand (s : Storage) (args : List String) :
    CmdResult × Storage :=
  let noteIDStr := argGet args 0
  if noteIDStr == "" then
    (⟨[], some "please provide ID of note to delete"⟩, s)
  else
    match atoi noteIDStr with
    | none =>
      (⟨[], some ("invalid note ID: " ++ atoiErrMsg noteIDStr)⟩, s)
    | some noteID =>
      match DeleteNote s noteID with
      | (.error e, s') =>
        (⟨[], some ("Error deleting note: " ++ errMsg e ++ "\n")⟩, s')
      | (.ok deletedID, s') =>
        (⟨["Deleted note with ID " ++ toString deletedID], none⟩, s')

/-- The action of the `get` command: prompts on a missing id, reports a
parse error on a non-numeric id, otherwise prints the note's fields. -/
def getNoteByIDCommand (s : Storage) (args : List String) :
    CmdResult × Storage :=
  let noteIDStr := argGet args 0
  if noteIDStr == "" then
    (⟨["Please provide ID of note to retrieve."], none⟩, s)
  else
    match atoi noteIDStr with
    | none =>
      (⟨[], some ("invalid note ID: " ++ atoiErrMsg noteIDStr)⟩, s)
    | some noteID =>
      match GetNoteByID s noteID with
      | .error e => (⟨[], some ("retrieving note: " ++ errMsg e)⟩, s)
      | .ok note =>
        (⟨["Note ID: " ++ toString note.id ++ "\nTitle: " ++ note.title
            ++ "\nContent: " ++ note.content
            ++ "\nCreatedAt: " ++ toString note.createdAt
            ++ "\nLastEditedAt: " ++ toString note.lastEditedAt], none⟩, s)

/-- The action of the `list` command: prints a header and one line per
note (content omitted). -/
def listNotesCommand (s : Storage) (_args : List String) :
    CmdResult × Storage :=
  (⟨"List of notes:" :: s.notes.map (fun note =>
      "ID: " ++ toString note.id ++ ", Title: " ++ note.title
        ++ ", CreatedAt: " ++ toString note.createdAt
        ++ ", LastEditedAt: " ++ toString note.lastEditedAt), none⟩, s)

/-- The action of the `update` command: prompts (and returns nil) on a
missing id or missing content, otherwise calls SetNoteContent. -/
def updateNoteContentCommand (s : Storage) (now : Nat)
    (args : List String) : CmdResult × Storage :=
  let noteIDStr := argGet args 0
  if noteIDStr == "" then
    (⟨["Please provide ID of note to update."], none⟩, s)
  else
    match atoi noteIDStr with
    | none =>
      (⟨[], some ("invalid note ID: " ++ atoiErrMsg noteIDStr)⟩, s)
    | some noteID =>
      let content := argGet args 1
      if content == "" then
        (⟨["Please provide content to update note."], none⟩, s)
      else
        match SetNoteContent s now noteID content with
        | (.error e, s') =>
          (⟨[], some ("updating note: " ++ errMsg e)⟩, s')
        | (.ok _, s') =>
          (⟨["Updated note with ID " ++ toString noteID], none⟩, s')

/-- The action of the `search` command: prompts on a missing keyword;
on a storage error it both prints the error and returns it. -/
def searchNotesCommand (s : Storage) (args : List String) :
    CmdResult × Storage :=
  let keyword := argGet args 0
  if keyword == "" then
    (⟨["Please provide a keyword to search for notes."], none⟩, s)
  else
    match SearchNotesByKeyword s keyword with
    | .error e =>
      (⟨["Error searching notes: " ++ errMsg e], some (errMsg e)⟩, s)
    | .ok notes =>
      if notes.length == 0 then
        (⟨["No notes found for keyword: " ++ keyword], none⟩, s)
      else
        (⟨("Notes found for keyword '" ++ keyword ++ "':")
            :: notes.map (fun note =>
              "ID: " ++ toString note.id ++ ", Title: " ++ note.title
                ++ ", Content: " ++ note.content
                ++ ", CreatedAt: " ++ toString note.createdAt
                ++ ", LastEditedAt: " ++ toString note.lastEditedAt),
          none⟩, s)

/-- NewCLI + app.Run: dispatch on the subcommand name (`os.Args[0]` is
already stripped); an unknown or absent command makes urfave/cli print
help and return nil. -/
def appRun (s : Storage) (now : Nat) (argv : List String) :
    CmdResult × Storage :=
  match argv with
  | "new" :: args => newNoteCommand s now args
  | "delete" :: args => deleteNoteCommand s args
  | "get" :: args => getNoteByIDCommand s args
  | "list" :: args => listNotesCommand s args
  | "update" :: args => updateNoteContentCommand s now args
  | "search" :: args => searchNotesCommand s args
  | _ => (⟨["Note Storage CLI help"], none⟩, s)

/-- main: if storage bootstrap fails, print the error and exit 1;
otherwise run the app and, if it returned an error, print it with the
"Error: " prefix — and still fall off the end of main with exit code 0.
Returns (exit code, printed lines). -/
def mainGo (init : Except String Storage) (now : Nat)
    (argv : List String) : Nat × List String :=
  match init with
  | .error e => (1, ["Error initializing storage: " ++ e])
  | .ok s =>
    let r := (appRun s now argv).1
    match r.err with
    | some e => (0, r.output ++ ["Error: " ++ e])
    | none => (0, r.output)

/-! ### Validator lemmas -/

theorem validate_strP_ok (v : String) (rest : List SQLParam)
    (h : strValid v) :
    validateSQLParam (.strP v :: rest) = validateSQLParam rest := by
  unfold strValid at h
  have hc : ¬ (v.utf8ByteSize < 1 ∨ v.utf8ByteSize > maxStringLength) := by
    push_neg
    exact ⟨h.1, h.2⟩
  conv_lhs => unfold validateSQLParam
  rw [if_neg hc]

theorem validate_strP_err (v : String) (rest : List SQLParam)
    (h : ¬ strValid v) :
    validateSQLParam (.strP v :: rest) = some .invalidParamLength := by
  unfold strValid at h
  push_neg at h
  unfold validateSQLParam
  rw [if_pos]
  unfold maxStringLength
  by_cases h1 : 1 ≤ v.utf8ByteSize
  · right; exact lt_of_lt_of_le (h h1) (by norm_num)
  · left; omega

theorem validate_intP_ok (v : Int) (rest : List SQLParam)
    (h : intValid v) :
    validateSQLParam (.intP v :: rest) = validateSQLParam rest := by
  unfold intValid at h
  have hc : ¬ (v < 1 ∨ v > maxInt32) := by
    push_neg
    exact ⟨h.1, h.2⟩
  conv_lhs => unfold validateSQLParam
  rw [if_neg hc]

theorem validate_intP_err (v : Int) (rest : List SQLParam)
    (h : ¬ intValid v) :
    validateSQLParam (.intP v :: rest) = some .invalidNum := by
  unfold intValid at h
  push_neg at h
  unfold validateSQLParam
  rw [if_pos]
  by_cases h1 : 1 ≤ v
  · right; exact h h1
  · left; omega

theorem validate_nil : validateSQLParam [] = none := rfl

/-! ### Suffix and LIKE lemmas -/

theorem nil_mem_suffixes (s : List Char) : [] ∈ suffixes s := by
  induction s with
  | nil => simp [suffixes]
  | cons c cs ih => simpa [suffixes] using ih

theorem self_mem_suffixes (s : List Char) : s ∈ suffixes s := by
  cases s with
  | nil => simp [suffixes]
  | cons c cs => simp [suffixes]

theorem likeMatch_one_pct (s : List Char) : likeMatch ['%'] s = true := by
  simp only [likeMatch, if_pos, beq_self_eq_true, if_true, List.any_eq_true]
  exact ⟨[], nil_mem_suffixes s, rfl⟩

theorem likeMatch_pct_cons (ps : List Char)
    (h : ∀ t, likeMatch ps t = true) (s : List Char) :
    likeMatch ('%' :: ps) s = true := by
  simp only [likeMatch, beq_self_eq_true, if_true, List.any_eq_true]
  exact ⟨s, self_mem_suffixes s, h s⟩

theorem likeMatch_three_pct (s : List Char) :
    likeMatch ['%', '%', '%'] s = true :=
  likeMatch_pct_cons _ (likeMatch_pct_cons _ likeMatch_one_pct) s

theorem likeMatch_plain_pct (k : List Char)
    (hk : ∀ c ∈ k, c ≠ '%' ∧ c ≠ '_') (s : List Char) :
    likeMatch (k ++ ['%']) s = hasPrefixCI k s := by
  induction k generalizing s with
  | nil => simpa [hasPrefixCI] using likeMatch_one_pct s
  | cons a ks ih =>
    obtain ⟨ha1, ha2⟩ := hk a (List.mem_cons_self a ks)
    have hks : ∀ c ∈ ks, c ≠ '%' ∧ c ≠ '_' :=
      fun c hc => hk c (List.mem_cons_of_mem a hc)
    cases s with
    | nil =>
      simp [likeMatch, hasPrefixCI, ha1]
    | cons c cs =>
      simp [likeMatch, hasPrefixCI, ha1, ha2, ih hks]

theorem likeMatch_pct_sandwich (k : List Char)
    (hk : ∀ c ∈ k, c ≠ '%' ∧ c ≠ '_') (s : List Char) :
    likeMatch ('%' :: (k ++ ['%'])) s = containsCI k s := by
  simp only [likeMatch, beq_self_eq_true, if_true, containsCI,
    likeMatch_plain_pct k hk]

theorem pct_pat_data (k : String) :
    ("%" ++ k ++ "%").data = '%' :: (k.data ++ ['%']) := by
  cases k with
  | mk l => rfl

/-! ### List helper lemmas -/

theorem foldl_max_init_le (l : List Note) (a : Int) :
    a ≤ l.foldl (fun m n => max m n.id) a := by
  induction l generalizing a with
  | nil => exact le_refl a
  | cons h t ih =>
    exact le_trans (le_max_left a h.id) (ih (max a h.id))

theorem mem_le_foldl_max (l : List Note) (a : Int) :
    ∀ n ∈ l, n.id ≤ l.foldl (fun m n => max m n.id) a := by
  induction l generalizing a with
  | nil => intro n hn; cases hn
  | cons hd t ih =>
    intro n hn
    cases hn with
    | head =>
      exact le_trans (le_max_right a hd.id) (foldl_max_init_le t (max a hd.id))
    | tail _ hm => exact ih (max a hd.id) n hm

theorem foldl_max_lt (l : List Note) (a b : Int) (ha : a < b)
    (h : ∀ n ∈ l, n.id < b) :
    l.foldl (fun m n => max m n.id) a < b := by
  induction l generalizing a with
  | nil => exact ha
  | cons hd t ih =>
    exact ih (max a hd.id)
      (max_lt ha (h hd (List.mem_cons_self hd t)))
      (fun n hn => h n (List.mem_cons_of_mem hd hn))

theorem maxRowId_nonneg (s : Storage) : 0 ≤ maxRowId s :=
  foldl_max_init_le s.notes 0

theorem mem_le_maxRowId (s : Storage) : ∀ n ∈ s.notes, n.id ≤ maxRowId s :=
  mem_le_foldl_max s.notes 0

theorem find?_append_of_none {l₁ l₂ : List Note} {p : Note → Bool}
    (h : l₁.find? p = none) : (l₁ ++ l₂).find? p = l₂.find? p := by
  simp [List.find?_append, h]

theorem find?_filter_not_pred (l : List Note) (p : Note → Bool) :
    (l.filter (fun n => !(p n))).find? p = none := by
  rw [List.find?_eq_none]
  intro x hx
  have := (List.mem_filter.mp hx).2
  simp at this
  simp [this]

theorem any_of_find?_some {l : List Note} {p : Note → Bool} {x : Note}
    (h : l.find? p = some x) : l.any p = true :=
  List.any_eq_true.mpr ⟨x, List.mem_of_find?_eq_some h, List.find?_some h⟩

theorem find?_map_update (l : List Note) (id : Int) (c : String) (t : Nat) :
    (l.map (fun m =>
      if m.id == id then { m with content := c, lastEditedAt := t }
      else m)).find? (fun m => m.id == id)
    = (l.find? (fun m => m.id == id)).map
        (fun m => { m with content := c, lastEditedAt := t }) := by
  induction l with
  | nil => rfl
  | cons a tl ih =>
    by_cases hid : (a.id == id) = true
    · rw [List.map_cons, if_pos hid]
      rw [List.find?_cons_of_pos]
      · rw [List.find?_cons_of_pos]
        · rfl
        · exact hid
      · exact hid
    · rw [List.map_cons, if_neg hid]
      rw [List.find?_cons_of_neg]
      · rw [List.find?_cons_of_neg]
        · exact ih
        · exact hid
      · exact hid

/-! ### Claim theorems -/

/-- C2: for every operation taking a textual or integer parameter
(NewNote, DeleteNote, SetNoteContent, GetNoteByID, SearchNotesByKeyword),
an integer parameter outside [1, 2^31-1] fails with "invalid number" and
a string parameter with byte length outside [1, 256000] fails with
"invalid param length", the check happening before any query, so the
state is unchanged on a validation failure. -/
theorem noteC2 (s : Storage) (now : Nat) (id : Int) (t c : String) :
    (¬ intValid id →
      DeleteNote s id = (.error .invalidNum, s)
      ∧ SetNoteContent s now id c = (.error .invalidNum, s)
      ∧ GetNoteByID s id = .error .invalidNum)
    ∧ (¬ strValid t →
      NewNote s now t c = (.error .invalidParamLength, s)
      ∧ SearchNotesByKeyword s t = .error .invalidParamLength)
    ∧ (strValid t → ¬ strValid c →
      NewNote s now t c = (.error .invalidParamLength, s))
    ∧ (intValid id → ¬ strValid c →
      SetNoteContent s now id c = (.error .invalidParamLength, s)) := by
  refine ⟨fun h => ⟨?_, ?_, ?_⟩, fun h => ⟨?_, ?_⟩,
    fun h1 h2 => ?_, fun h1 h2 => ?_⟩
  · unfold DeleteNote
    rw [validate_intP_err _ _ h]
  · unfold SetNoteContent
    rw [validate_intP_err _ _ h]
  · unfold GetNoteByID
    rw [validate_intP_err _ _ h]
  · unfold NewNote
    rw [validate_strP_err _ _ h]
  · unfold SearchNotesByKeyword
    rw [validate_strP_err _ _ h]
  · unfold NewNote
    rw [validate_strP_ok _ _ h1, validate_strP_err _ _ h2]
  · unfold SetNoteContent
    rw [validate_intP_ok _ _ h1, validate_strP_err _ _ h2]

/-- Witness for C2 at concrete invalid inputs. -/
theorem noteC2_witness :
    DeleteNote ⟨[]⟩ 0 = (.error .invalidNum, ⟨[]⟩)
    ∧ NewNote ⟨[]⟩ 0 "" "c" = (.error .invalidParamLength, ⟨[]⟩)
    ∧ NewNote ⟨[]⟩ 0 "t" "" = (.error .invalidParamLength, ⟨[]⟩)
    ∧ SetNoteContent ⟨[]⟩ 0 5 "" = (.error .invalidParamLength, ⟨[]⟩) :=
  ⟨((noteC2 ⟨[]⟩ 0 0 "" "c").1 (by decide)).1,
    ((noteC2 ⟨[]⟩ 0 0 "" "c").2.1 (by decide)).1,
    (noteC2 ⟨[]⟩ 0 0 "t" "").2.2.1 (by decide) (by decide),
    (noteC2 ⟨[]⟩ 0 5 "t" "").2.2.2 (by decide) (by decide)⟩

/-- C10: the characters of the keyword are spliced into the LIKE pattern
"%" ++ keyword ++ "%", so "%" acts as a wildcard: on a non-empty
database, searching for the keyword "%" returns every note. -/
theorem noteC10 (s : Storage) (h : s.notes ≠ []) :
    SearchNotesByKeyword s "%" = .ok s.notes := by
  unfold SearchNotesByKeyword
  rw [validate_strP_ok _ _ (by decide)]
  have hall : ∀ n ∈ s.notes,
      (likeMatch ("%" ++ "%" ++ "%").data n.title.data
        || likeMatch ("%" ++ "%" ++ "%").data n.content.data) = true := by
    intro n hn
    have hdata : ("%" ++ "%" ++ "%").data = ['%', '%', '%'] := rfl
    rw [hdata, likeMatch_three_pct, likeMatch_three_pct]
    rfl
  show Except.ok (s.notes.filter (fun n =>
    likeMatch ("%" ++ "%" ++ "%").data n.title.data
    || likeMatch ("%" ++ "%" ++ "%").data n.content.data)) = Except.ok s.notes
  rw [List.filter_eq_self.mpr hall]

/-- Witness for C10 on a one-note database whose text contains no '%'. -/
theorem noteC10_witness :
    SearchNotesByKeyword ⟨[⟨1, "T", "C", 0, 0⟩]⟩ "%"
      = .ok [⟨1, "T", "C", 0, 0⟩] :=
  noteC10 ⟨[⟨1, "T", "C", 0, 0⟩]⟩ (by decide)

/-- C1 counterexample: SQLite LIKE is ASCII-case-insensitive by default,
so the keyword "hello" matches title "Hello" even though neither field
contains "hello" as a case-sensitive literal substring — the claimed
exclusion fails. -/
theorem noteC1_counterexample :
    SearchNotesByKeyword ⟨[⟨1, "Hello", "x", 0, 0⟩]⟩ "hello"
      = .ok [⟨1, "Hello", "x", 0, 0⟩]
    ∧ containsCS "hello".data "Hello".data = false
    ∧ containsCS "hello".data "x".data = false :=
  ⟨rfl, rfl, rfl⟩

/-- C1 amended: for a valid keyword containing neither '%' nor '_',
SearchNotesByKeyword returns exactly the notes whose title or content
contains the keyword as a case-insensitive (ASCII folding) substring;
a note matching in neither field is excluded, and an empty result set
is not an error. -/
theorem noteC1_amended (s : Storage) (k : String) (hv : strValid k)
    (hw : ∀ c ∈ k.data, c ≠ '%' ∧ c ≠ '_') :
    SearchNotesByKeyword s k
      = .ok (s.notes.filter (fun n =>
          containsCI k.data n.title.data
          || containsCI k.data n.content.data)) := by
  unfold SearchNotesByKeyword
  rw [validate_strP_ok _ _ hv]
  show Except.ok (s.notes.filter (fun n =>
    likeMatch ("%" ++ k ++ "%").data n.title.data
    || likeMatch ("%" ++ k ++ "%").data n.content.data)) = _
  have hfil : s.notes.filter (fun n =>
      likeMatch ("%" ++ k ++ "%").data n.title.data
      || likeMatch ("%" ++ k ++ "%").data n.content.data)
    = s.notes.filter (fun n =>
      containsCI k.data n.title.data
      || containsCI k.data n.content.data) := by
    apply List.filter_congr
    intro n _
    rw [pct_pat_data k, likeMatch_pct_sandwich _ hw, likeMatch_pct_sandwich _ hw]
  rw [hfil]

/-- Witness for the amended C1: "ALPHA" finds the note titled "Alpha"
and excludes the note "beta". -/
theorem noteC1_amended_witness :
    SearchNotesByKeyword ⟨[⟨1, "Alpha", "x", 0, 0⟩, ⟨2, "beta", "y", 0, 0⟩]⟩
      "ALPHA" = .ok [⟨1, "Alpha", "x", 0, 0⟩] := by
  rw [noteC1_amended ⟨[⟨1, "Alpha", "x", 0, 0⟩, ⟨2, "beta", "y", 0, 0⟩]⟩
    "ALPHA" (by decide) (by decide)]
  rfl

/-- C3: after a successful SetNoteContent(id, c2) at a strictly later
time, GetNoteByID(id) returns the note with content c2, a strictly
advanced lastEditedAt, and unchanged createdAt, title and id.  (The
strict advance relies on the update happening at a strictly later
timestamp: CURRENT_TIMESTAMP has one-second resolution, so `now` is the
trigger's clock reading.) -/
theorem noteC3 (s : Storage) (now : Nat) (id : Int) (c2 : String) (n : Note)
    (hget : GetNoteByID s id = .ok n)
    (hc : strValid c2)
    (ht : n.lastEditedAt < now) :
    (SetNoteContent s now id c2).1 = .ok ()
    ∧ ∃ n', GetNoteByID (SetNoteContent s now id c2).2 id = .ok n'
      ∧ n'.content = c2
      ∧ n.lastEditedAt < n'.lastEditedAt
      ∧ n'.createdAt = n.createdAt
      ∧ n'.title = n.title
      ∧ n'.id = n.id := by
  have hid : intValid id := by
    by_contra hni
    have hG : GetNoteByID s id = .error .invalidNum := by
      unfold GetNoteByID
      rw [validate_intP_err _ _ hni]
    rw [hG] at hget
    exact absurd hget (by simp)
  have hfind : s.notes.find? (fun m => m.id == id) = some n := by
    cases hf : s.notes.find? (fun m => m.id == id) with
    | some m =>
      have hG : GetNoteByID s id = .ok m := by
        unfold GetNoteByID
        rw [validate_intP_ok _ _ hid, validate_nil, hf]
      rw [hG] at hget
      simp only [Except.ok.injEq] at hget
      rw [hget]
    | none =>
      have hG : GetNoteByID s id = .error .errNoRows := by
        unfold GetNoteByID
        rw [validate_intP_ok _ _ hid, validate_nil, hf]
      rw [hG] at hget
      exact absurd hget (by simp)
  have hany : s.notes.any (fun m => m.id == id) = true :=
    any_of_find?_some hfind
  have hset : SetNoteContent s now id c2
      = (.ok (), ⟨s.notes.map (fun m =>
          if m.id == id then { m with content := c2, lastEditedAt := now }
          else m)⟩) := by
    unfold SetNoteContent
    rw [validate_intP_ok _ _ hid, validate_strP_ok _ _ hc, validate_nil,
      if_pos hany]
  refine ⟨by rw [hset], ⟨{ n with content := c2, lastEditedAt := now },
    ?_, rfl, ht, rfl, rfl, rfl⟩⟩
  rw [hset]
  show GetNoteByID ⟨s.notes.map (fun m =>
    if m.id == id then { m with content := c2, lastEditedAt := now }
    else m)⟩ id = _
  unfold GetNoteByID
  rw [validate_intP_ok _ _ hid, validate_nil]
  show (match (s.notes.map (fun m =>
      if m.id == id then { m with content := c2, lastEditedAt := now }
      else m)).find? (fun m => m.id == id) with
    | some m => Except.ok m
    | none => Except.error StorageErr.errNoRows) = _
  rw [find?_map_update, hfind]
  rfl

/-- Witness for C3: updating the only note's content at time 5. -/
theorem noteC3_witness :
    (SetNoteContent ⟨[⟨1, "T", "C", 0, 0⟩]⟩ 5 1 "D").1 = .ok ()
    ∧ ∃ n', GetNoteByID (SetNoteContent ⟨[⟨1, "T", "C", 0, 0⟩]⟩ 5 1 "D").2 1
        = .ok n'
      ∧ n'.content = "D"
      ∧ (⟨1, "T", "C", 0, 0⟩ : Note).lastEditedAt < n'.lastEditedAt
      ∧ n'.createdAt = (⟨1, "T", "C", 0, 0⟩ : Note).createdAt
      ∧ n'.title = (⟨1, "T", "C", 0, 0⟩ : Note).title
      ∧ n'.id = (⟨1, "T", "C", 0, 0⟩ : Note).id :=
  noteC3 ⟨[⟨1, "T", "C", 0, 0⟩]⟩ 5 1 "D" ⟨1, "T", "C", 0, 0⟩ rfl
    (by decide) (by decide)

/-- C4: for valid title and content (and a table whose largest rowid is
below 2^31-1 so the fresh id passes the read-back validation), NewNote
returns a positive id and GetNoteByID on that id returns a note with
that id, the given title and content, and equal createdAt and
lastEditedAt. -/
theorem noteC4 (s : Storage) (now : Nat) (t c : String)
    (ht : strValid t) (hc : strValid c) (hcap : maxRowId s < maxInt32) :
    ∃ id s', NewNote s now t c = (.ok id, s')
      ∧ 0 < id
      ∧ GetNoteByID s' id = .ok ⟨id, t, c, now, now⟩ := by
  have h0 : 0 ≤ maxRowId s := maxRowId_nonneg s
  refine ⟨maxRowId s + 1,
    ⟨s.notes ++ [⟨maxRowId s + 1, t, c, now, now⟩]⟩, ?_, by omega, ?_⟩
  · unfold NewNote
    rw [validate_strP_ok _ _ ht, validate_strP_ok _ _ hc, validate_nil]
  · unfold GetNoteByID
    rw [validate_intP_ok _ _ ⟨by omega, Int.add_one_le_iff.mpr hcap⟩,
      validate_nil]
    have hnone : s.notes.find? (fun n => n.id == maxRowId s + 1) = none := by
      rw [List.find?_eq_none]
      intro x hx
      have hle := mem_le_maxRowId s x hx
      simp only [beq_iff_eq]
      omega
    dsimp only
    rw [find?_append_of_none hnone]
    rw [List.find?_cons_of_pos]
    exact beq_self_eq_true _

/-- Witness for C4 on the empty database at time 4. -/
theorem noteC4_witness :
    ∃ id s', NewNote ⟨[]⟩ 4 "T" "C" = (.ok id, s')
      ∧ 0 < id
      ∧ GetNoteByID s' id = .ok ⟨id, "T", "C", 4, 4⟩ :=
  noteC4 ⟨[]⟩ 4 "T" "C" (by decide) (by decide) (by decide)

/-- C5: for a valid id matching no note, DeleteNote, SetNoteContent and
GetNoteByID each fail with `sql.ErrNoRows` (NotFound) and leave the
state unchanged; a successful DeleteNote echoes its id, and GetNoteByID
afterwards fails with NotFound. -/
theorem noteC5 (s : Storage) (now : Nat) (id : Int) (c : String)
    (hc : strValid c) :
    (intValid id → s.notes.find? (fun n => n.id == id) = none →
      DeleteNote s id = (.error .errNoRows, s)
      ∧ SetNoteContent s now id c = (.error .errNoRows, s)
      ∧ GetNoteByID s id = .error .errNoRows)
    ∧ (∀ r s', DeleteNote s id = (.ok r, s') →
      r = id ∧ GetNoteByID s' id = .error .errNoRows) := by
  constructor
  · intro hid hnone
    have hany : s.notes.any (fun n => n.id == id) = false := by
      rw [List.any_eq_false]
      exact List.find?_eq_none.mp hnone
    refine ⟨?_, ?_, ?_⟩
    · unfold DeleteNote
      rw [validate_intP_ok _ _ hid, validate_nil, if_neg (by simp [hany])]
    · unfold SetNoteContent
      rw [validate_intP_ok _ _ hid, validate_strP_ok _ _ hc, validate_nil,
        if_neg (by simp [hany])]
    · unfold GetNoteByID
      rw [validate_intP_ok _ _ hid, validate_nil, hnone]
  · intro r s' hdel
    have hid : intValid id := by
      by_contra hni
      have hD : DeleteNote s id = (.error .invalidNum, s) := by
        unfold DeleteNote
        rw [validate_intP_err _ _ hni]
      rw [hD] at hdel
      exact absurd hdel (by simp)
    by_cases hany : s.notes.any (fun n => n.id == id) = true
    · have hD : DeleteNote s id
          = (.ok id, ⟨s.notes.filter (fun n => !(n.id == id))⟩) := by
        unfold DeleteNote
        rw [validate_intP_ok _ _ hid, validate_nil, if_pos hany]
      rw [hD] at hdel
      simp only [Prod.mk.injEq, Except.ok.injEq] at hdel
      obtain ⟨hr, hs'⟩ := hdel
      refine ⟨hr.symm, ?_⟩
      rw [← hs']
      unfold GetNoteByID
      rw [validate_intP_ok _ _ hid, validate_nil, find?_filter_not_pred]
    · have hD : DeleteNote s id = (.error .errNoRows, s) := by
        unfold DeleteNote
        rw [validate_intP_ok _ _ hid, validate_nil,
          if_neg (by simp [hany])]
      rw [hD] at hdel
      exact absurd hdel (by simp)

/-- Witness for C5 on the empty database with id 5. -/
theorem noteC5_witness :
    DeleteNote ⟨[]⟩ 5 = (.error .errNoRows, ⟨[]⟩)
    ∧ GetNoteByID ⟨[]⟩ 5 = .error .errNoRows := by
  have h := (noteC5 ⟨[]⟩ 0 5 "c" (by decide)).1 (by decide) rfl
  exact ⟨h.1, h.2.2⟩

/-- C6 counterexample: a hard storage error during a command (deleting a
nonexistent note) is printed with the "Error: " prefix, but main falls
off the end and the process exit code is 0, not 1. -/
theorem noteC6_counterexample :
    (appRun ⟨[]⟩ 0 ["delete", "5"]).1.err
      = some "Error deleting note: sql: no rows in result set\n"
    ∧ mainGo (.ok ⟨[]⟩) 0 ["delete", "5"]
      = (0, ["Error: Error deleting note: sql: no rows in result set\n"]) :=
  ⟨rfl, rfl⟩

/-- C6 amended: the exit code is 1 exactly when storage bootstrap fails
(printed as "Error initializing storage: ..."); every other invocation
exits 0, including command failures, which are printed to standard
output with the "Error: " prefix. -/
theorem noteC6_amended (e : String) (s : Storage) (now : Nat)
    (argv : List String) :
    mainGo (.error e) now argv = (1, ["Error initializing storage: " ++ e])
    ∧ (mainGo (.ok s) now argv).1 = 0
    ∧ (∀ msg, (appRun s now argv).1.err = some msg →
        mainGo (.ok s) now argv
          = (0, (appRun s now argv).1.output ++ ["Error: " ++ msg])) := by
  refine ⟨rfl, ?_, ?_⟩
  · simp only [mainGo]
    cases herr : (appRun s now argv).1.err <;> simp [herr]
  · intro msg hm
    simp only [mainGo, hm]

/-- Witness for the amended C6: init failure exits 1; a failed delete
exits 0 with the "Error: " prefix. -/
theorem noteC6_amended_witness :
    mainGo (.error "boom") 0 ["list"]
      = (1, ["Error initializing storage: boom"])
    ∧ mainGo (.ok ⟨[]⟩) 0 ["delete", "7"]
      = (0, ["Error: Error deleting note: sql: no rows in result set\n"]) := by
  refine ⟨(noteC6_amended "boom" ⟨[]⟩ 0 ["list"]).1, ?_⟩
  exact (noteC6_amended "x" ⟨[]⟩ 0 ["delete", "7"]).2.2
    "Error deleting note: sql: no rows in result set\n" rfl

/-- C7: a missing positional argument is a prompt plus a nil error (exit
0) for the new, update and search commands, but a returned error for the
delete command; in every case the storage is untouched. -/
theorem noteC7 (s : Storage) (now : Nat) (t idStr : String) (i : Int)
    (ht : t ≠ "") (hi : atoi idStr = some i) :
    newNoteCommand s now []
      = (⟨["Please provide a title for new note."], none⟩, s)
    ∧ newNoteCommand s now [t]
      = (⟨["Please provide content for new note."], none⟩, s)
    ∧ updateNoteContentCommand s now []
      = (⟨["Please provide ID of note to update."], none⟩, s)
    ∧ updateNoteContentCommand s now [idStr]
      = (⟨["Please provide content to update note."], none⟩, s)
    ∧ searchNotesCommand s []
      = (⟨["Please provide a keyword to search for notes."], none⟩, s)
    ∧ deleteNoteCommand s []
      = (⟨[], some "please provide ID of note to delete"⟩, s) := by
  have ht' : (t == "") = false := beq_eq_false_iff_ne.mpr ht
  have hne : idStr ≠ "" := by
    intro h
    rw [h] at hi
    exact Option.noConfusion hi
  have hne' : (idStr == "") = false := beq_eq_false_iff_ne.mpr hne
  refine ⟨rfl, ?_, rfl, ?_, rfl, rfl⟩
  · simp [newNoteCommand, argGet, ht']
  · simp [updateNoteContentCommand, argGet, hne', hi]

/-- Witness for C7 with t = "T" and idStr = "3". -/
theorem noteC7_witness :
    newNoteCommand ⟨[]⟩ 0 []
      = (⟨["Please provide a title for new note."], none⟩, ⟨[]⟩)
    ∧ newNoteCommand ⟨[]⟩ 0 ["T"]
      = (⟨["Please provide content for new note."], none⟩, ⟨[]⟩)
    ∧ updateNoteContentCommand ⟨[]⟩ 0 []
      = (⟨["Please provide ID of note to update."], none⟩, ⟨[]⟩)
    ∧ updateNoteContentCommand ⟨[]⟩ 0 ["3"]
      = (⟨["Please provide content to update note."], none⟩, ⟨[]⟩)
    ∧ searchNotesCommand ⟨[]⟩ []
      = (⟨["Please provide a keyword to search for notes."], none⟩, ⟨[]⟩)
    ∧ deleteNoteCommand ⟨[]⟩ []
      = (⟨[], some "please provide ID of note to delete"⟩, ⟨[]⟩) :=
  noteC7 ⟨[]⟩ 0 "T" "3" 3 (by decide) rfl

/-- C8 counterexample: creating a note with empty content does not
succeed — NewNote rejects it with "invalid param length". -/
theorem noteC8_counterexample :
    NewNote ⟨[]⟩ 0 "T" "" = (.error .invalidParamLength, ⟨[]⟩) := rfl

/-- C8 amended: the schema allows empty content, but the API does not:
NewNote (for any title) and SetNoteContent (for any valid id) reject the
empty content string with InvalidParameter ("invalid param length"),
content being validated for length in [1, 256000] like every string
parameter. -/
theorem noteC8_amended (s : Storage) (now : Nat) (t : String) (id : Int)
    (hid : intValid id) :
    NewNote s now t "" = (.error .invalidParamLength, s)
    ∧ SetNoteContent s now id "" = (.error .invalidParamLength, s) := by
  constructor
  · unfold NewNote
    by_cases hts : strValid t
    · rw [validate_strP_ok _ _ hts, validate_strP_err _ _ (by decide)]
    · rw [validate_strP_err _ _ hts]
  · unfold SetNoteContent
    rw [validate_intP_ok _ _ hid, validate_strP_err _ _ (by decide)]

/-- Witness for the amended C8 with title "T" and id 1. -/
theorem noteC8_amended_witness :
    NewNote ⟨[]⟩ 0 "T" "" = (.error .invalidParamLength, ⟨[]⟩)
    ∧ SetNoteContent ⟨[]⟩ 0 1 "" = (.error .invalidParamLength, ⟨[]⟩) :=
  noteC8_amended ⟨[]⟩ 0 "T" 1 (by decide)

/-- C9 counterexample: id 1 is assigned, the note is deleted, and the
next NewNote returns id 1 again — SQLite's `INTEGER PRIMARY KEY`
without AUTOINCREMENT reuses the id. -/
theorem noteC9_counterexample :
    NewNote ⟨[]⟩ 0 "T" "C" = (.ok 1, ⟨[⟨1, "T", "C", 0, 0⟩]⟩)
    ∧ DeleteNote ⟨[⟨1, "T", "C", 0, 0⟩]⟩ 1 = (.ok 1, ⟨[]⟩)
    ∧ (NewNote ⟨[]⟩ 1 "T" "C").1 = .ok 1 :=
  ⟨rfl, rfl, rfl⟩

/-- C9 amended: NewNote assigns one more than the largest id currently
stored, so after deleting a note whose id exceeds every remaining id,
the next NewNote returns an id no larger than the deleted one — the
deleted id is reused whenever it equals that maximum plus one. -/
theorem noteC9_amended (s s₁ : Storage) (now : Nat) (t c : String)
    (id : Int) (ht : strValid t) (hc : strValid c)
    (hdel : DeleteNote s id = (.ok id, s₁))
    (hlt : ∀ n ∈ s₁.notes, n.id < id) :
    (NewNote s₁ now t c).1 = .ok (maxRowId s₁ + 1)
    ∧ maxRowId s₁ + 1 ≤ id := by
  have hid : intValid id := by
    by_contra hni
    have hD : DeleteNote s id = (.error .invalidNum, s) := by
      unfold DeleteNote
      rw [validate_intP_err _ _ hni]
    rw [hD] at hdel
    exact absurd (congrArg Prod.fst hdel) (by simp)
  have hpos : 1 ≤ id := hid.1
  constructor
  · unfold NewNote
    rw [validate_strP_ok _ _ ht, validate_strP_ok _ _ hc, validate_nil]
  · have hmax : maxRowId s₁ < id := by
      unfold maxRowId
      exact foldl_max_lt s₁.notes 0 id (by omega) hlt
    omega

/-- Witness for the amended C9: deleting the only note (id 1) and
creating a new one reassigns id 1. -/
theorem noteC9_amended_witness :
    (NewNote ⟨[]⟩ 7 "T" "C").1 = .ok 1 ∧ (1 : Int) ≤ 1 := by
  have h := noteC9_amended ⟨[⟨1, "T", "C", 0, 0⟩]⟩ ⟨[]⟩ 7 "T" "C" 1
    (by decide) (by decide) rfl (by simp)
  exact h


end GoNotes
